import Mathlib

/-!
Verification of the retrospecs screen-capture subsystem.

This file gives a shallow embedding, in Lean, of the capture backends and
the capture/render coordinator of the `retrospecs` repository:

* `WindowCapture` (src/retrospecs/window_capture.py) — the Linux direct
  window-capture backend selected by `ScreenCapture`;
* `X11DirectCapture` (src/retrospecs/x11_capture.py) — the ctypes/Xlib
  direct capture variant;
* `MacOSCapture` (src/retrospecs/macos_capture.py) — the PID-filtered
  window-exclusion backend;
* `Win32Capture` (src/retrospecs/win32_capture.py) — the display-affinity
  backend;
* `ScreenCapture` (src/retrospecs/capture.py) — the front end with mss
  fallback;
* `GLWidget._on_timer` / `_finish_mss_capture` (src/retrospecs/gl_widget.py)
  — the capture/render coordinator tick.

OS interactions (window enumeration, geometry queries, pixmap reads,
screenshots) are modelled as explicit environment arguments; functions that
issue OS calls additionally return a trace of the calls they made, so that
ordering claims ("before any OS call") are expressible.
-/

namespace Retrospecs

/-- Screen-space geometry of a window as reported by `xwininfo` /
`XGetWindowAttributes` + `XTranslateCoordinates`: absolute upper-left
x, y and width, height. -/
structure Geom where
  x : Int
  y : Int
  w : Int
  h : Int
deriving DecidableEq, Repr

/-- The overlap test used by both direct-capture walks:
`wx < sx + sw and wx + ww > sx and wy < sy + sh and wy + wh > sy`
(window_capture.py line 119, x11_capture.py line 293). -/
def overlapsRegion (g : Geom) (sx sy sw sh : Int) : Bool :=
  g.x < sx + sw && g.x + g.w > sx && g.y < sy + sh && g.y + g.h > sy

/-! ## WindowCapture._find_target (src/retrospecs/window_capture.py)

`_get_stacking` returns `_NET_CLIENT_LIST_STACKING` as listed by `xprop`
(bottom-to-top); `_find_target` walks `reversed(stacking)` — topmost first —
with a `found_self` flag, and returns the first window after the own window
whose geometry overlaps the requested region.  The walk is embedded over the
already-reversed (front-to-back) list; geometry lookup is an environment
function `geom : Nat → Option Geom` standing for `_get_geometry`. -/

/-- One pass of the `for wid in reversed(stacking)` loop of `_find_target`
(window_capture.py lines 108-120).  Input list is in front-to-back order.
Returns the target (with its geometry) if one was found, together with the
final value of `found_self`. -/
def findTargetWalk (own : Nat) (geom : Nat → Option Geom)
    (sx sy sw sh : Int) : List Nat → Bool → Option (Nat × Geom) × Bool
  | [], foundSelf => (none, foundSelf)
  | wid :: rest, foundSelf =>
    if wid = own then
      findTargetWalk own geom sx sy sw sh rest true
    else if !foundSelf then
      findTargetWalk own geom sx sy sw sh rest foundSelf
    else
      match geom wid with
      | none => findTargetWalk own geom sx sy sw sh rest foundSelf
      | some g =>
        if overlapsRegion g sx sy sw sh then (some (wid, g), foundSelf)
        else findTargetWalk own geom sx sy sw sh rest foundSelf

/-- The fallback loop of `_find_target` (window_capture.py lines 125-138):
over the same front-to-back list, skipping the own window, keep the window
of largest area (`ww * wh`) among those whose geometry overlaps the region;
ties keep the earlier one (`area > best_area`). -/
def largestOverlapWalk (own : Nat) (geom : Nat → Option Geom)
    (sx sy sw sh : Int) : List Nat → Nat × Int × Option Geom →
    Nat × Int × Option Geom
  | [], best => best
  | wid :: rest, best =>
    if wid = own then largestOverlapWalk own geom sx sy sw sh rest best
    else
      match geom wid with
      | none => largestOverlapWalk own geom sx sy sw sh rest best
      | some g =>
        if overlapsRegion g sx sy sw sh then
          let area := g.w * g.h
          if area > best.2.1 then
            largestOverlapWalk own geom sx sy sw sh rest (wid, area, some g)
          else largestOverlapWalk own geom sx sy sw sh rest best
        else largestOverlapWalk own geom sx sy sw sh rest best

/-- `WindowCapture._find_target` (window_capture.py lines 102-140).
`stacking` is the raw `_get_stacking` result (bottom-to-top); the walk runs
over `stacking.reverse`.  Returns `(wid, geom)` of the chosen target, or
`(0, none)` when there is none — exactly the Python `return 0, None`. -/
def findTarget (own : Nat) (geom : Nat → Option Geom)
    (sx sy sw sh : Int) (stacking : List Nat) : Nat × Option Geom :=
  if stacking = [] then (0, none)
  else
    match findTargetWalk own geom sx sy sw sh stacking.reverse false with
    | (some (wid, g), _) => (wid, some g)
    | (none, foundSelf) =>
      if !foundSelf then
        let best := largestOverlapWalk own geom sx sy sw sh
          stacking.reverse (0, 0, none)
        if best.1 ≠ 0 then (best.1, best.2.2) else (0, none)
      else (0, none)

/-! ## X11DirectCapture._find_target_window (src/retrospecs/x11_capture.py)

Same walk (stacking list read back-to-front via
`for i in range(len(stacking) - 1, -1, -1)`), but returning only the window
id and with no fallback: when the loop ends the function returns `None`. -/

/-- `X11DirectCapture._find_target_window` (x11_capture.py lines 272-295). -/
def findTargetWindowX11 (own : Nat) (geom : Nat → Option Geom)
    (sx sy sw sh : Int) (stacking : List Nat) : Option Nat :=
  if stacking = [] then none
  else
    match findTargetWalk own geom sx sy sw sh stacking.reverse false with
    | (some (wid, _), _) => some wid
    | (none, _) => none

/-! ## Frames -/

/-- One RGBA pixel, channel values 0..255. -/
structure RGBA where
  r : Nat
  g : Nat
  b : Nat
  a : Nat
deriving DecidableEq, Repr

/-- A captured frame: a pixel buffer tagged with its own width and height
(RGBA8, row-major, top-down).  `pix x y` is the pixel at column `x`,
row `y`. -/
structure Frame where
  width : Nat
  height : Nat
  pix : Nat → Nat → RGBA

/-! ## MacOSCapture (src/retrospecs/macos_capture.py)

Window enumeration (`CGWindowListCopyWindowInfo`) yields a CFArray whose
entries may be null and whose `kCGWindowOwnerPID` / `kCGWindowNumber`
lookups or CFNumber conversions may fail; a failed lookup or conversion is
modelled as `none`. -/

/-- One entry of the `CGWindowListCopyWindowInfo` result: owner pid and
window number, each `none` when the dictionary key is absent or the
CFNumber conversion fails. -/
structure WinInfo where
  pid : Option Int
  wid : Option Int
deriving DecidableEq, Repr

/-- `MacOSCapture._filter_window_ids` (macos_capture.py lines 227-271):
skip null entries, entries without a readable owner pid, entries owned by
our pid, entries without a readable window number, and non-positive window
numbers; collect the remaining window numbers in order. -/
def filterWindowIds (ourPid : Int) : List (Option WinInfo) → List Int
  | [] => []
  | none :: rest => filterWindowIds ourPid rest
  | some info :: rest =>
    match info.pid with
    | none => filterWindowIds ourPid rest
    | some p =>
      if p = ourPid then filterWindowIds ourPid rest
      else
        match info.wid with
        | none => filterWindowIds ourPid rest
        | some w =>
          if w > 0 then w :: filterWindowIds ourPid rest
          else filterWindowIds ourPid rest

/-- The set the spec describes: the window ids of the enumerated entries
whose owner process id differs from the current process id. -/
def foreignIds (ourPid : Int) : List (Option WinInfo) → List Int :=
  List.filterMap fun e =>
    match e with
    | none => none
    | some info =>
      match info.pid, info.wid with
      | some p, some w => if p = ourPid then none else some w
      | _, _ => none

/-- An enumerated entry is well formed when it is non-null and carries a
readable owner pid and a readable, positive window number — what the OS
guarantees for real on-screen windows. -/
def wellFormedEntry (e : Option WinInfo) : Prop :=
  ∃ info p w, e = some info ∧ info.pid = some p ∧ info.wid = some w ∧ w > 0

/-- OS calls issued by `MacOSCapture.grab`, in order. -/
inductive MacCall where
  | copyWindowInfo
  | createImageFromArray (ids : List Int) (x y width height : Int)
deriving DecidableEq, Repr

/-- Environment for one `MacOSCapture.grab`: the enumeration result
(`none` models a null CFArray), whether `CFArrayCreate` succeeds, and the
combined result of `CGWindowListCreateImageFromArray` + `_decode_image`
for given ids and rect (`none` models a null image or a decode failure). -/
structure MacEnv where
  windowList : Option (List (Option WinInfo))
  arrayCreateOk : Bool
  createImage : List Int → Int → Int → Int → Int → Option Frame

/-- `MacOSCapture.grab` (macos_capture.py lines 169-225).  Note: the
enumeration call is issued first, unconditionally — there is no check of
`width`/`height` before it. -/
def macGrab (ourPid : Int) (x y width height : Int) (env : MacEnv) :
    Option Frame × List MacCall :=
  match env.windowList with
  | none => (none, [MacCall.copyWindowInfo])
  | some entries =>
    let ids := filterWindowIds ourPid entries
    if ids.isEmpty then (none, [MacCall.copyWindowInfo])
    else if !env.arrayCreateOk then (none, [MacCall.copyWindowInfo])
    else
      (env.createImage ids x y width height,
       [MacCall.copyWindowInfo,
        MacCall.createImageFromArray ids x y width height])

/-! ## mss grabs (used by capture.py and win32_capture.py)

`mss.grab` either returns a screenshot or raises; both call sites wrap it
in `try/except` and turn an exception into `None`. -/

/-- Outcome of one `mss.grab` OS call. -/
inductive MssResult where
  | shot (f : Frame)
  | raised
deriving Inhabited

/-- BGRA → RGBA normalisation `frame[:, :, [0, 2]] = frame[:, :, [2, 0]]`:
swap the red and blue channels, keep green and alpha. -/
def swapRB (f : Frame) : Frame :=
  { f with pix := fun x y =>
      let p := f.pix x y
      ⟨p.b, p.g, p.r, p.a⟩ }

/-- Shared decode of an `mss.grab` outcome (capture.py lines 73-87,
win32_capture.py lines 68-82): an exception becomes `None`; a screenshot
with degenerate dimensions becomes `None`; otherwise the buffer is copied
and normalised BGRA → RGBA. -/
def mssDecode : MssResult → Option Frame
  | .raised => none
  | .shot f => if f.width = 0 ∨ f.height = 0 then none else some (swapRB f)

/-! ## Win32Capture (src/retrospecs/win32_capture.py) -/

/-- `WDA_NONE` — normal display affinity. -/
def WDA_NONE : Int := 0x00000000

/-- `WDA_EXCLUDEFROMCAPTURE` — window omitted from all capture surfaces. -/
def WDA_EXCLUDEFROMCAPTURE : Int := 0x00000011

/-- OS calls issued by `Win32Capture`. -/
inductive W32Call where
  | setWindowDisplayAffinity (hwnd affinity : Int)
  | mssGrabCall (x y width height : Int)
  | mssCloseCall
deriving DecidableEq, Repr

/-- State of a `Win32Capture` instance: own window handle, the handles
passed to `set_companion_windows` so far, and whether the OS accepted the
exclusion flag on the own window at construction. -/
structure Win32State where
  ownHwnd : Int
  companionHwnds : List Int
  affinityOk : Bool
deriving DecidableEq, Repr

/-- `Win32Capture.__init__` (win32_capture.py lines 40-48): apply the
exclusion flag to the own window; `accepted` is the OS's answer. -/
def win32Init (ownHwnd : Int) (accepted : Bool) : Win32State × List W32Call :=
  (⟨ownHwnd, [], accepted⟩,
   [W32Call.setWindowDisplayAffinity ownHwnd WDA_EXCLUDEFROMCAPTURE])

/-- `Win32Capture.needs_hide` (win32_capture.py lines 50-53). -/
def win32NeedsHide (s : Win32State) : Bool := !s.affinityOk

/-- `Win32Capture.set_companion_windows` (win32_capture.py lines 55-60):
flag each handle and append it to the tracked list, regardless of whether
the OS accepted the flag. -/
def win32SetCompanions (s : Win32State) (hwnds : List Int) :
    Win32State × List W32Call :=
  ({ s with companionHwnds := s.companionHwnds ++ hwnds },
   hwnds.map (W32Call.setWindowDisplayAffinity · WDA_EXCLUDEFROMCAPTURE))

/-- Fold `set_companion_windows` over several calls (the coordinator calls
it once, early; the model allows any number). -/
def win32SetCompanionBatches (s : Win32State) :
    List (List Int) → Win32State × List W32Call
  | [] => (s, [])
  | hs :: rest =>
    let (s1, t1) := win32SetCompanions s hs
    let (s2, t2) := win32SetCompanionBatches s1 rest
    (s2, t1 ++ t2)

/-- `Win32Capture.grab` (win32_capture.py lines 62-82): degenerate region
returns `None` before the mss call; otherwise one mss grab, decoded.  The
companion list and affinity flag are never touched. -/
def win32Grab (s : Win32State) (x y width height : Int) (env : MssResult) :
    Option Frame × Win32State × List W32Call :=
  if width ≤ 0 ∨ height ≤ 0 then (none, s, [])
  else (mssDecode env, s, [W32Call.mssGrabCall x y width height])

/-- `Win32Capture.close` (win32_capture.py lines 84-90): clear the affinity
flag on the own handle and on every tracked companion handle (the OS
results are ignored — the ctypes call has no exception path), then close
the mss instance. -/
def win32Close (s : Win32State) : List W32Call :=
  W32Call.setWindowDisplayAffinity s.ownHwnd WDA_NONE
    :: s.companionHwnds.map (W32Call.setWindowDisplayAffinity · WDA_NONE)
    ++ [W32Call.mssCloseCall]

/-! ## WindowCapture grab (src/retrospecs/window_capture.py)

`grab` is stateful: a refresh counter, a cached target (id + geometry),
and a background-detection thread.  Target discovery (`_find_target`) runs
only in the background worker (`_detect_worker`), which publishes its
result into the cache; `grab` itself only reads the cache and reads pixels
via `QScreen.grabWindow`. -/

/-- Mutable state of a `WindowCapture` instance. -/
structure WCState where
  ownWid : Nat
  targetWid : Nat
  targetGeom : Int × Int × Int × Int
  refreshCounter : Nat
  detectRunning : Bool
deriving DecidableEq, Repr

/-- `WindowCapture.__init__` (window_capture.py lines 28-37). -/
def wcInit (ownWid : Nat) : WCState :=
  ⟨ownWid, 0, (0, 0, 0, 0), 0, false⟩

/-- `WindowCapture._DETECT_INTERVAL` — re-detect every 300 frames. -/
def DETECT_INTERVAL : Nat := 300

/-- OS-level actions issued by `WindowCapture.grab`. -/
inductive WCCall where
  | startDetect (sx sy sw sh : Int)
  | grabWindowCall (wid : Nat) (lx ly width height : Int)
deriving DecidableEq, Repr

/-- `WindowCapture._detect_worker` publishing its result (window_capture.py
lines 95-100): a nonzero wid replaces the cached target.  This runs in the
background thread, never inside `grab`. -/
def wcPublish (s : WCState) (wid : Nat) (geom : Int × Int × Int × Int) :
    WCState :=
  if wid ≠ 0 then
    { s with targetWid := wid, targetGeom := geom, detectRunning := false }
  else { s with detectRunning := false }

/-- Counter bump and detection kick-off of `WindowCapture.grab`
(window_capture.py lines 43-47 with `_start_detect`, lines 85-93).
Detection is only *started* here (when the cached target is unset or the
counter expires and no detection thread is alive); its result is published
asynchronously by `wcPublish`, never within a grab. -/
def wcTickDetect (s : WCState) (sx sy sw sh : Int) : WCState × List WCCall :=
  let c := s.refreshCounter + 1
  let kick := s.targetWid = 0 ∨ c ≥ DETECT_INTERVAL
  ({ s with
      refreshCounter := if kick then 0 else c
      detectRunning := if kick then true else s.detectRunning },
   if kick ∧ ¬s.detectRunning then [WCCall.startDetect sx sy sw sh] else [])

/-- The local-coordinate clip of `WindowCapture.grab` (window_capture.py
lines 52-63): local origin within the target and clipped width/height. -/
def wcClip (geomT : Int × Int × Int × Int) (sx sy sw sh : Int) :
    Int × Int × Int × Int :=
  let (tx, ty, tw, th) := geomT
  let lx := sx - tx
  let ly := sy - ty
  let (lx2, w2) := if lx < 0 then (0, sw + lx) else (lx, sw)
  let (ly2, h2) := if ly < 0 then (0, sh + ly) else (ly, sh)
  (lx2, ly2, min w2 (tw - lx2), min h2 (th - ly2))

/-- `WindowCapture.grab` (window_capture.py lines 41-78): bump the counter
and possibly kick off detection, then read the cached target, convert to
its local coordinates, clip, and read the pixels.  `env` is the content
`QScreen.grabWindow` would deliver for the clipped sub-rectangle (`none`
models a null pixmap — e.g. a vanished target). -/
def wcGrab (s : WCState) (sx sy sw sh : Int) (env : Option Frame) :
    Option Frame × WCState × List WCCall :=
  let (s1, detectTrace) := wcTickDetect s sx sy sw sh
  if s1.targetWid = 0 then (none, s1, detectTrace)
  else
    let (lx2, ly2, w3, h3) := wcClip s1.targetGeom sx sy sw sh
    if w3 ≤ 0 ∨ h3 ≤ 0 then (none, s1, detectTrace)
    else
      match env with
      | none =>
        (none, { s1 with targetWid := 0 },
         detectTrace ++ [WCCall.grabWindowCall s1.targetWid lx2 ly2 w3 h3])
      | some f =>
        (some f, s1,
         detectTrace ++ [WCCall.grabWindowCall s1.targetWid lx2 ly2 w3 h3])

/-! ## ScreenCapture (src/retrospecs/capture.py)

On Linux the selected direct backend is a `WindowCapture`; `_qt_cap` is
`none` when no direct backend could be constructed (mss mode). -/

/-- OS calls issued through `ScreenCapture`. -/
inductive SCCall where
  | qtCall (c : WCCall)
  | mssCreate
  | mssShotCall (x y width height : Int)
deriving DecidableEq, Repr

/-- State of a `ScreenCapture`: the direct backend selected at
construction (if any) and whether an mss instance exists yet. -/
structure SCState where
  qtCap : Option WCState
  mssPresent : Bool
deriving DecidableEq, Repr

/-- `ScreenCapture.needs_hide` (capture.py lines 47-50). -/
def scNeedsHide (s : SCState) : Bool := s.qtCap.isNone

/-- `ScreenCapture._mss_grab` (capture.py lines 69-87): create the mss
instance lazily, issue one grab, decode (exceptions → `None`). -/
def scMssGrab (mssPresent : Bool) (x y width height : Int)
    (env : MssResult) : Option Frame × Bool × List SCCall :=
  ((mssDecode env), true,
   (if mssPresent then [] else [SCCall.mssCreate])
     ++ [SCCall.mssShotCall x y width height])

/-- `ScreenCapture.grab` (capture.py lines 57-67): degenerate region
returns `None` with no OS call; otherwise try the direct backend first,
and when it yields no frame fall through to `_mss_grab`. -/
def scGrab (s : SCState) (x y width height : Int)
    (wcEnv : Option Frame) (mssEnv : MssResult) :
    Option Frame × SCState × List SCCall :=
  if width ≤ 0 ∨ height ≤ 0 then (none, s, [])
  else
    match s.qtCap with
    | some wc =>
      let (r, wc', t) := wcGrab wc x y width height wcEnv
      match r with
      | some f => (some f, { s with qtCap := some wc' }, t.map SCCall.qtCall)
      | none =>
        let (r2, present, t2) := scMssGrab s.mssPresent x y width height mssEnv
        (r2, { qtCap := some wc', mssPresent := present },
         t.map SCCall.qtCall ++ t2)
    | none =>
      let (r2, present, t2) := scMssGrab s.mssPresent x y width height mssEnv
      (r2, { s with mssPresent := present }, t2)

/-! ## X11DirectCapture._read_from_window (src/retrospecs/x11_capture.py) -/

/-- A pixel of an `XImage` in memory byte order (c0,c1,c2,c3): BGRA for
32-bit images, BGR (c3 unused) for 24-bit images. -/
structure RawPix where
  c0 : Nat
  c1 : Nat
  c2 : Nat
  c3 : Nat
deriving DecidableEq, Repr

/-- Result of `XGetImage`: pixel depth and raw pixel data. -/
structure XImage where
  bitsPerPixel : Nat
  pix : Nat → Nat → RawPix

/-- Normalisation applied in both depth branches of `_read_from_window`
(x11_capture.py lines 330-342): 32-bit swaps channels 0 and 2 and forces
alpha to 255; 24-bit assembles r,g,b from bytes 2,1,0 with alpha 255 — in
both cases `(r,g,b,a) = (c2,c1,c0,255)`. -/
def xPixToRGBA (p : RawPix) : RGBA := ⟨p.c2, p.c1, p.c0, 255⟩

/-- Fully opaque black — the padding colour (`np.zeros` + `alpha = 255`). -/
def opaqueBlack : RGBA := ⟨0, 0, 0, 255⟩

/-- The screen-to-window clip of `_read_from_window` (x11_capture.py lines
305-308): local origin `(lx, ly)` and clipped size `(gw, gh)` of the
readable sub-rectangle of the target. -/
def clippedRect (g : Geom) (sx sy sw sh : Int) : Int × Int × Int × Int :=
  let lx := max (sx - g.x) 0
  let ly := max (sy - g.y) 0
  (lx, ly, min sw (g.w - lx), min sh (g.h - ly))

/-- `X11DirectCapture._read_from_window` (x11_capture.py lines 297-353).
`geomResult` stands for `_window_screen_geometry(wid)`; `env lx ly gw gh`
stands for the `XGetImage` call on the clipped sub-rectangle.  When the
grabbed sub-rectangle is smaller than the requested `sw × sh`, the frame
is placed at the top-left of a requested-size buffer whose remaining area
is fully-opaque black. -/
def readFromWindow (geomResult : Option Geom) (sx sy sw sh : Int)
    (env : Int → Int → Int → Int → Option XImage) : Option Frame :=
  match geomResult with
  | none => none
  | some g =>
    let (lx, ly, gw, gh) := clippedRect g sx sy sw sh
    if gw ≤ 0 ∨ gh ≤ 0 then none
    else
      match env lx ly gw gh with
      | none => none
      | some img =>
        if img.bitsPerPixel ≠ 24 ∧ img.bitsPerPixel ≠ 32 then none
        else
          let inner : Frame :=
            ⟨gw.toNat, gh.toNat, fun x y => xPixToRGBA (img.pix x y)⟩
          if gw < sw ∨ gh < sh then
            some ⟨sw.toNat, sh.toNat, fun x y =>
              if x < gw.toNat ∧ y < gh.toNat then inner.pix x y
              else opaqueBlack⟩
          else some inner

/-- `X11DirectCapture.grab` (x11_capture.py lines 195-200): find the
target via the stacking walk, then read from it.  `geom` doubles as the
geometry oracle for the walk and for `_read_from_window`. -/
def x11Grab (own : Nat) (geom : Nat → Option Geom) (stacking : List Nat)
    (sx sy sw sh : Int)
    (env : Nat → Int → Int → Int → Int → Option XImage) : Option Frame :=
  match findTargetWindowX11 own (fun w => geom w) sx sy sw sh stacking with
  | none => none
  | some wid => readFromWindow (geom wid) sx sy sw sh (env wid)

/-! ## Capture/render coordinator (src/retrospecs/gl_widget.py)

`GLWidget._on_timer` and `_finish_mss_capture`.  Window opacities are
rationals (the code writes only 0.0 and 1.0).  The trace records every
opacity write, the `processEvents` flush, the `singleShot` scheduling, the
`grab` call and the `update` request, in program order. -/

/-- The windows the coordinator touches. -/
inductive CoordWin where
  | overlayW
  | toolbarW
  | gripW
deriving DecidableEq, Repr

/-- Observable actions of one coordinator tick. -/
inductive CoordOp where
  | setOpacity (w : CoordWin) (value : ℚ)
  | processEvents
  | singleShot
  | grabOp (x y width height : Int)
  | updateOp
deriving DecidableEq, Repr

/-- A top-level window as the coordinator sees it: current opacity and
visibility. -/
structure WinState where
  opacity : ℚ
  visible : Bool
deriving DecidableEq, Repr

/-- Coordinator state: `capture` is `self._capture` (`none` before
`start()`), `capturing` the re-entrancy guard, `overlay` the own top-level
window, `toolbar`/`grip` the companion windows when they exist
(`getattr(..., None)`), `capRegion` the saved `self._cap_region`, and
`pendingFrame` the frame awaiting upload. -/
structure CoordState where
  capture : Option SCState
  capturing : Bool
  overlay : WinState
  toolbar : Option WinState
  grip : Option WinState
  capRegion : Int × Int × Int × Int
  pendingFrame : Option Frame

/-- `GLWidget._on_timer` (gl_widget.py lines 242-273).  `x y w h` is the
live on-screen rectangle; `wcEnv`/`mssEnv` feed a synchronous grab when
`needs_hide` is false.  The asynchronous branch hides the own window and
every *visible* companion, flushes, and schedules `_finish_mss_capture`;
it performs no grab itself. -/
def onTimer (s : CoordState) (x y w h : Int)
    (wcEnv : Option Frame) (mssEnv : MssResult) :
    CoordState × List CoordOp :=
  match s.capture with
  | none => (s, [])
  | some cap =>
    if s.capturing then (s, [])
    else if w ≤ 0 ∨ h ≤ 0 then (s, [])
    else if scNeedsHide cap then
      let hideToolbar := match s.toolbar with
        | some t => t.visible
        | none => false
      let hideGrip := match s.grip with
        | some gr => gr.visible
        | none => false
      let ops :=
        [CoordOp.setOpacity CoordWin.overlayW 0]
          ++ (if hideToolbar then [CoordOp.setOpacity CoordWin.toolbarW 0] else [])
          ++ (if hideGrip then [CoordOp.setOpacity CoordWin.gripW 0] else [])
          ++ [CoordOp.processEvents, CoordOp.singleShot]
      ({ s with
          capturing := true
          capRegion := (x, y, w, h)
          overlay := { s.overlay with opacity := 0 }
          toolbar := s.toolbar.map fun t =>
            if t.visible then { t with opacity := 0 } else t
          grip := s.grip.map fun gr =>
            if gr.visible then { gr with opacity := 0 } else gr },
       ops)
    else
      let (r, cap', _) := scGrab cap x y w h wcEnv mssEnv
      ({ s with
          capture := some cap'
          pendingFrame := match r with
            | some f => some f
            | none => s.pendingFrame },
       [CoordOp.grabOp x y w h, CoordOp.updateOp])

/-- `GLWidget._finish_mss_capture` (gl_widget.py lines 275-294): grab the
saved region through `ScreenCapture` (whose mss path catches OS errors and
turns them into `None`), then restore opacity 1.0 on the own window and on
every companion that exists, keep the old pending frame on a null grab,
request a redraw and drop the re-entrancy guard. -/
def finishMssCapture (s : CoordState)
    (wcEnv : Option Frame) (mssEnv : MssResult) :
    CoordState × List CoordOp :=
  match s.capture with
  | none => (s, [])
  | some cap =>
    let (x, y, w, h) := s.capRegion
    let (r, cap', _) := scGrab cap x y w h wcEnv mssEnv
    let ops :=
      [CoordOp.grabOp x y w h,
       CoordOp.setOpacity CoordWin.overlayW 1]
        ++ (if s.toolbar.isSome then [CoordOp.setOpacity CoordWin.toolbarW 1] else [])
        ++ (if s.grip.isSome then [CoordOp.setOpacity CoordWin.gripW 1] else [])
        ++ [CoordOp.updateOp]
    ({ s with
        capture := some cap'
        capturing := false
        overlay := { s.overlay with opacity := 1 }
        toolbar := s.toolbar.map fun t => { t with opacity := 1 }
        grip := s.grip.map fun gr => { gr with opacity := 1 }
        pendingFrame := match r with
          | some f => some f
          | none => s.pendingFrame },
     ops)

/-- One full asynchronous tick: the timer fires, and — when (and only
when) this tick scheduled a hide/capture/restore cycle — the delayed
`_finish_mss_capture` fires afterwards. -/
def asyncTickCycle (s : CoordState) (x y w h : Int)
    (wcEnv : Option Frame) (mssEnv : MssResult) :
    CoordState × List CoordOp :=
  let (s1, t1) := onTimer s x y w h wcEnv mssEnv
  if ¬s.capturing ∧ s1.capturing then
    let (s2, t2) := finishMssCapture s1 wcEnv mssEnv
    (s2, t1 ++ t2)
  else (s1, t1)

/-- The sequence of opacity values written to window `w` in a trace. -/
def opacityWrites (w : CoordWin) (ops : List CoordOp) : List ℚ :=
  ops.filterMap fun op =>
    match op with
    | CoordOp.setOpacity w' v => if w' = w then some v else none
    | _ => none

/-! ## Spec-side comparison definition for the fallback claim -/

/-- Modelled from the spec sentence "If none found among managed windows,
fall back to the largest-area overlapping window from the full window
set": identical to `findTarget` except that the fallback runs whenever the
walk produced no target, regardless of whether the own window was found. -/
def findTargetClaimed (own : Nat) (geom : Nat → Option Geom)
    (sx sy sw sh : Int) (stacking : List Nat) : Nat × Option Geom :=
  if stacking = [] then (0, none)
  else
    match findTargetWalk own geom sx sy sw sh stacking.reverse false with
    | (some (wid, g), _) => (wid, some g)
    | (none, _) =>
      let best := largestOverlapWalk own geom sx sy sw sh
        stacking.reverse (0, 0, none)
      if best.1 ≠ 0 then (best.1, best.2.2) else (0, none)

/-! ## Lemmas about the stacking walk -/

/-- Step of the walk at the own window: mark `found_self` and continue. -/
theorem findTargetWalk_cons_own (own : Nat) (geom : Nat → Option Geom)
    (sx sy sw sh : Int) (rest : List Nat) (b : Bool) :
    findTargetWalk own geom sx sy sw sh (own :: rest) b =
      findTargetWalk own geom sx sy sw sh rest true := by
  rw [findTargetWalk, if_pos rfl]

/-- Step of the walk below a foreign window before the own window was
found: skip without querying its geometry. -/
theorem findTargetWalk_cons_skip (own : Nat) (geom : Nat → Option Geom)
    (sx sy sw sh : Int) (wid : Nat) (rest : List Nat) (hw : wid ≠ own) :
    findTargetWalk own geom sx sy sw sh (wid :: rest) false =
      findTargetWalk own geom sx sy sw sh rest false := by
  rw [findTargetWalk, if_neg hw, if_pos (show (!false) = true from rfl)]

/-- Step of the walk at a foreign window after the own window was found:
query its geometry and either take it (overlap) or continue. -/
theorem findTargetWalk_cons_found (own : Nat) (geom : Nat → Option Geom)
    (sx sy sw sh : Int) (wid : Nat) (rest : List Nat) (hw : wid ≠ own) :
    findTargetWalk own geom sx sy sw sh (wid :: rest) true =
      (match geom wid with
       | none => findTargetWalk own geom sx sy sw sh rest true
       | some g =>
         if overlapsRegion g sx sy sw sh then (some (wid, g), true)
         else findTargetWalk own geom sx sy sw sh rest true) := by
  rw [findTargetWalk, if_neg hw, if_neg (by simp : ¬((!true) = true))]

/-- Step of the walk at a foreign window after the own window was found,
when its geometry query fails: skip it. -/
theorem findTargetWalk_cons_found_none (own : Nat) (geom : Nat → Option Geom)
    (sx sy sw sh : Int) (wid : Nat) (rest : List Nat) (hw : wid ≠ own)
    (hg : geom wid = none) :
    findTargetWalk own geom sx sy sw sh (wid :: rest) true =
      findTargetWalk own geom sx sy sw sh rest true := by
  rw [findTargetWalk_cons_found own geom sx sy sw sh wid rest hw, hg]

/-- Step of the walk at a foreign window after the own window was found,
when its geometry is known: take it iff it overlaps. -/
theorem findTargetWalk_cons_found_some (own : Nat) (geom : Nat → Option Geom)
    (sx sy sw sh : Int) (wid : Nat) (rest : List Nat) (g : Geom)
    (hw : wid ≠ own) (hg : geom wid = some g) :
    findTargetWalk own geom sx sy sw sh (wid :: rest) true =
      (if overlapsRegion g sx sy sw sh then (some (wid, g), true)
       else findTargetWalk own geom sx sy sw sh rest true) := by
  rw [findTargetWalk_cons_found own geom sx sy sw sh wid rest hw, hg]

/-- When the walk ends without a target it has consumed the whole list, so
its `found_self` output records exactly whether the own window occurred. -/
theorem findTargetWalk_none_flag (own : Nat) (geom : Nat → Option Geom)
    (sx sy sw sh : Int) :
    ∀ (l : List Nat) (b : Bool),
      (findTargetWalk own geom sx sy sw sh l b).1 = none →
      ((findTargetWalk own geom sx sy sw sh l b).2 = true ↔
        (b = true ∨ own ∈ l)) := by
  intro l
  induction l with
  | nil => intro b _; simp [findTargetWalk]
  | cons wid rest ih =>
    intro b h
    by_cases hw : wid = own
    · subst hw
      rw [findTargetWalk_cons_own] at h ⊢
      rw [ih true h]
      simp
    · cases b with
      | false =>
        rw [findTargetWalk_cons_skip own geom sx sy sw sh wid rest hw] at h ⊢
        rw [ih false h]
        have hw' : own ≠ wid := fun hc => hw hc.symm
        simp [hw']
      | true =>
        cases hg : geom wid with
        | none =>
          rw [findTargetWalk_cons_found_none own geom sx sy sw sh
            wid rest hw hg] at h ⊢
          rw [ih true h]
          simp
        | some g =>
          rw [findTargetWalk_cons_found_some own geom sx sy sw sh
            wid rest g hw hg] at h ⊢
          by_cases hov : overlapsRegion g sx sy sw sh = true
          · rw [if_pos hov] at h; exact absurd h (by simp)
          · rw [if_neg hov] at h ⊢
            rw [ih true h]
            simp

/-- A walk that never meets the own window never queries a geometry and
finds nothing. -/
theorem findTargetWalk_not_mem (own : Nat) (geom : Nat → Option Geom)
    (sx sy sw sh : Int) :
    ∀ (l : List Nat), own ∉ l →
      findTargetWalk own geom sx sy sw sh l false = (none, false) := by
  intro l
  induction l with
  | nil => intro _; rfl
  | cons wid rest ih =>
    intro hmem
    have hw : wid ≠ own := fun hc => hmem (hc ▸ List.mem_cons_self wid rest)
    have hrest : own ∉ rest := fun hc => hmem (List.mem_cons_of_mem wid hc)
    rw [findTargetWalk_cons_skip own geom sx sy sw sh wid rest hw]
    exact ih hrest

/-! ## Claim theorems: stacking walk -/

/-- Concrete geometry oracle for the synthetic stacking instance of the
spec: C = (500,500,10,10), D = (50,50,200,200), self = (0,0,100,100); the
geometries of A and B are left arbitrary. -/
def geomC5 (gA gB : Option Geom) : Nat → Option Geom := fun w =>
  if w = 3 then some ⟨500, 500, 10, 10⟩
  else if w = 4 then some ⟨50, 50, 200, 200⟩
  else if w = 1 then gA
  else if w = 2 then gB
  else some ⟨0, 0, 100, 100⟩

/-- C5: the target search walks the stacking list topmost to bottommost,
skips everything up to and including the own window, and selects the first
subsequent window overlapping the region.  For front-to-back order
[A, B, self, C, D] (ids 1, 2, 10, 3, 4; stored bottom-to-top as
[4, 3, 10, 2, 1]) with region (0,0,100,100), C not overlapping and D
overlapping, both direct-capture variants resolve the target to D — never
to A, B (whose geometries are arbitrary here) or C. -/
theorem stacking_walk_resolves_D (gA gB : Option Geom) :
    findTarget 10 (geomC5 gA gB) 0 0 100 100 [4, 3, 10, 2, 1]
      = (4, some ⟨50, 50, 200, 200⟩) ∧
    findTargetWindowX11 10 (geomC5 gA gB) 0 0 100 100 [4, 3, 10, 2, 1]
      = some 4 :=
  ⟨rfl, rfl⟩

/-- Geometry oracle for the fallback counterexample: the topmost window
(id 5) overlaps the region, the window below the own window (id 2) does
not. -/
def geomC6 : Nat → Option Geom := fun w =>
  if w = 5 then some ⟨0, 0, 100, 100⟩
  else if w = 2 then some ⟨500, 500, 10, 10⟩
  else none

/-- C6 counterexample: with stacking (bottom-to-top) [2, own, 5] — own
window present, nothing below it overlapping, the topmost window 5
overlapping — the code returns no target, while the claimed behaviour
(fall back to the largest-area overlapping window of the full set whenever
the walk finds none) would return window 5. -/
theorem fallback_requires_self_missing_cex :
    findTarget 10 geomC6 0 0 100 100 [2, 10, 5] = (0, none) ∧
    findTargetClaimed 10 geomC6 0 0 100 100 [2, 10, 5]
      = (5, some ⟨0, 0, 100, 100⟩) :=
  ⟨rfl, rfl⟩

/-- C6 amended: the largest-area fallback runs only when the own window
does not appear in the stacking list.  When the own window is present,
the result is that of the walk alone (no target when nothing below the
own window overlaps); when it is absent, the code behaves exactly as the
claimed fallback describes. -/
theorem fallback_only_when_self_missing (own : Nat)
    (geom : Nat → Option Geom) (sx sy sw sh : Int) (stacking : List Nat) :
    (own ∈ stacking →
      findTarget own geom sx sy sw sh stacking =
        (match findTargetWalk own geom sx sy sw sh stacking.reverse false with
         | (some (wid, g), _) => (wid, some g)
         | (none, _) => (0, none))) ∧
    (own ∉ stacking →
      findTarget own geom sx sy sw sh stacking =
        findTargetClaimed own geom sx sy sw sh stacking) := by
  constructor
  · intro hmem
    have hne : stacking ≠ [] := List.ne_nil_of_mem hmem
    rw [findTarget, if_neg hne]
    rcases hw : findTargetWalk own geom sx sy sw sh stacking.reverse false
      with ⟨r, flag⟩
    cases r with
    | some p => rcases p with ⟨wid, g⟩; rfl
    | none =>
      have h1 : (findTargetWalk own geom sx sy sw sh
          stacking.reverse false).1 = none := by rw [hw]
      have h2 := findTargetWalk_none_flag own geom sx sy sw sh
        stacking.reverse false h1
      rw [hw] at h2
      have hf : flag = true :=
        h2.mpr (Or.inr (List.mem_reverse.mpr hmem))
      subst hf
      rfl
  · intro hmem
    by_cases hne : stacking = []
    · rw [hne]; rfl
    · have hmr : own ∉ stacking.reverse := by
        intro hc; exact hmem (List.mem_reverse.mp hc)
      rw [findTarget, findTargetClaimed, if_neg hne, if_neg hne,
        findTargetWalk_not_mem own geom sx sy sw sh stacking.reverse hmr]
      rfl

/-- C6 witness: both parts of the amended fallback theorem at concrete
inputs — own window present (no target) and own window absent (claimed
fallback behaviour). -/
theorem fallback_only_when_self_missing_witness :
    findTarget 10 geomC6 0 0 100 100 [2, 10, 5] = (0, none) ∧
    findTarget 10 geomC6 0 0 100 100 [2, 5]
      = findTargetClaimed 10 geomC6 0 0 100 100 [2, 5] := by
  constructor
  · have h := (fallback_only_when_self_missing 10 geomC6
      0 0 100 100 [2, 10, 5]).1 (by decide)
    exact h.trans rfl
  · exact (fallback_only_when_self_missing 10 geomC6
      0 0 100 100 [2, 5]).2 (by decide)

/-! ## Claim theorems: WindowCapture first grab -/

/-- The counter bump / detection kick never touches the cached target. -/
theorem wcTickDetect_targetWid (s : WCState) (sx sy sw sh : Int) :
    (wcTickDetect s sx sy sw sh).1.targetWid = s.targetWid := rfl

/-- C10: a freshly constructed `WindowCapture` starts with cached target
id 0; its first `grab` returns `none` and still has no target afterwards
(detection only runs in the background worker); moreover `grab` never
synchronously acquires a target — a frame requires a previously published
nonzero target, and the cached target after any `grab` is either unchanged
or reset to 0. -/
theorem fresh_wcGrab_returns_none (own : Nat) (sx sy sw sh : Int)
    (env : Option Frame) :
    (wcGrab (wcInit own) sx sy sw sh env).1 = none ∧
    (wcGrab (wcInit own) sx sy sw sh env).2.1.targetWid = 0 ∧
    (∀ (s : WCState) (f : Frame),
      (wcGrab s sx sy sw sh env).1 = some f → s.targetWid ≠ 0) ∧
    (∀ s : WCState,
      (wcGrab s sx sy sw sh env).2.1.targetWid = s.targetWid ∨
      (wcGrab s sx sy sw sh env).2.1.targetWid = 0) := by
  refine ⟨rfl, rfl, ?_, ?_⟩
  · intro s f h h0
    simp [wcGrab, wcTickDetect_targetWid, h0] at h
  · intro s
    by_cases h0 : s.targetWid = 0
    · left
      simp [wcGrab, wcTickDetect_targetWid, h0]
    · rw [wcGrab]
      simp only [wcTickDetect_targetWid, h0, if_false]
      split
      · left; exact wcTickDetect_targetWid s sx sy sw sh
      · cases env with
        | none => right; rfl
        | some f => left; exact wcTickDetect_targetWid s sx sy sw sh

/-- C10 witness: the first grab of a concrete fresh instance. -/
theorem fresh_wcGrab_returns_none_witness :
    (wcGrab (wcInit 7) 0 0 100 100 none).1 = none :=
  (fresh_wcGrab_returns_none 7 0 0 100 100 none).1

/-! ## Claim theorems: Win32Capture affinity restoration -/

/-- Folding `set_companion_windows` only appends the passed handles. -/
theorem win32SetCompanionBatches_state :
    ∀ (batches : List (List Int)) (s : Win32State),
      (win32SetCompanionBatches s batches).1 =
        { s with companionHwnds := s.companionHwnds ++ batches.flatten } := by
  intro batches
  induction batches with
  | nil =>
    intro s
    cases s
    simp [win32SetCompanionBatches]
  | cons hs rest ih =>
    intro s
    simp [win32SetCompanionBatches, win32SetCompanions, ih, List.append_assoc]

/-- C2: `close()` attempts to clear the exclusion flag (WDA_NONE) on the
own handle and on every handle ever passed to `set_companion_windows`,
whether or not `grab` was ever invoked (`grab` leaves the companion list
and affinity state untouched); the OS results of the clearing calls are
ignored, so a failure to clear is never fatal. -/
theorem win32Close_clears_all (own : Int) (accepted : Bool)
    (batches : List (List Int)) :
    (W32Call.setWindowDisplayAffinity own WDA_NONE ∈
      win32Close (win32SetCompanionBatches
        (win32Init own accepted).1 batches).1) ∧
    (∀ hwnd, hwnd ∈ batches.flatten →
      W32Call.setWindowDisplayAffinity hwnd WDA_NONE ∈
        win32Close (win32SetCompanionBatches
          (win32Init own accepted).1 batches).1) ∧
    (∀ (x y w h : Int) (env : MssResult),
      (win32Grab (win32SetCompanionBatches
          (win32Init own accepted).1 batches).1 x y w h env).2.1 =
        (win32SetCompanionBatches
          (win32Init own accepted).1 batches).1) := by
  rw [win32SetCompanionBatches_state batches (win32Init own accepted).1]
  refine ⟨?_, ?_, ?_⟩
  · exact List.mem_cons_self _ _
  · intro hwnd hmem
    refine List.mem_cons_of_mem _ (List.mem_append_left _ ?_)
    simpa [win32Init] using List.mem_map_of_mem
      (W32Call.setWindowDisplayAffinity · WDA_NONE) hmem
  · intro x y w h env
    rw [win32Grab]
    split
    · rfl
    · rfl

/-- C2 witness: an instance with two batches of companion handles and no
grab; close clears the own handle and both companions. -/
theorem win32Close_clears_all_witness :
    (W32Call.setWindowDisplayAffinity 100 WDA_NONE ∈
      win32Close (win32SetCompanionBatches
        (win32Init 100 true).1 [[200], [300]]).1) ∧
    (W32Call.setWindowDisplayAffinity 300 WDA_NONE ∈
      win32Close (win32SetCompanionBatches
        (win32Init 100 true).1 [[200], [300]]).1) := by
  refine ⟨(win32Close_clears_all 100 true [[200], [300]]).1, ?_⟩
  exact (win32Close_clears_all 100 true [[200], [300]]).2.1 300 (by decide)

/-! ## Claim theorems: PID filter -/

/-- For well-formed enumerations the code filter computes exactly the ids
of foreign-owned windows. -/
theorem filterWindowIds_eq_foreignIds (ourPid : Int) :
    ∀ entries : List (Option WinInfo),
      (∀ e ∈ entries, wellFormedEntry e) →
      filterWindowIds ourPid entries = foreignIds ourPid entries := by
  intro entries
  induction entries with
  | nil => intro _; rfl
  | cons e rest ih =>
    intro hwf
    obtain ⟨info, p, w, he, hp, hw, hwpos⟩ := hwf e (List.mem_cons_self e rest)
    subst he
    have hrest : ∀ e ∈ rest, wellFormedEntry e :=
      fun e he => hwf e (List.mem_cons_of_mem _ he)
    by_cases hpo : p = ourPid <;>
      simp [filterWindowIds, foreignIds, List.filterMap_cons, hp, hw, hpo,
        hwpos, ih hrest]

/-- C7: the Window-Exclusion backend's filter keeps exactly the window ids
whose owner pid differs from ours (given the well-formed entries the OS
enumeration produces), and that list is exactly what `grab` passes to
`CGWindowListCreateImageFromArray`. -/
theorem pid_filter_exact (ourPid : Int) (entries : List (Option WinInfo))
    (hwf : ∀ e ∈ entries, wellFormedEntry e) :
    filterWindowIds ourPid entries = foreignIds ourPid entries ∧
    (∀ (x y w h : Int) (env : MacEnv),
      env.windowList = some entries →
      env.arrayCreateOk = true →
      filterWindowIds ourPid entries ≠ [] →
      (macGrab ourPid x y w h env).2 =
        [MacCall.copyWindowInfo,
         MacCall.createImageFromArray (foreignIds ourPid entries) x y w h]) := by
  have hfe := filterWindowIds_eq_foreignIds ourPid entries hwf
  refine ⟨hfe, ?_⟩
  intro x y w h env hwl hok hne
  have hempty : (filterWindowIds ourPid entries).isEmpty = false := by
    cases hl : filterWindowIds ourPid entries with
    | nil => exact absurd hl hne
    | cons a l => rfl
  rw [hfe] at hempty
  rw [macGrab, hwl]
  simp [hempty, hok, hfe]

/-- Concrete five-window enumeration: three windows owned by pid 1 (ours),
two by pids 2 and 3. -/
def entriesC7 : List (Option WinInfo) :=
  [some ⟨some 1, some 11⟩, some ⟨some 1, some 12⟩, some ⟨some 2, some 21⟩,
   some ⟨some 1, some 13⟩, some ⟨some 3, some 31⟩]

/-- Concrete macOS environment delivering `entriesC7`. -/
def envC7 : MacEnv :=
  ⟨some entriesC7, true, fun _ _ _ _ _ => none⟩

/-- C7 witness: with 5 windows, 3 ours and 2 foreign, the filter yields
exactly the 2 foreign ids and they are what reaches the compositor call. -/
theorem pid_filter_exact_witness :
    filterWindowIds 1 entriesC7 = [21, 31] ∧
    (macGrab 1 0 0 800 600 envC7).2 =
      [MacCall.copyWindowInfo,
       MacCall.createImageFromArray [21, 31] 0 0 800 600] := by
  have hwf : ∀ e ∈ entriesC7, wellFormedEntry e := by
    intro e he
    simp [entriesC7] at he
    rcases he with h | h | h | h | h <;> subst h <;>
      exact ⟨_, _, _, rfl, rfl, rfl, by norm_num⟩
  have h := pid_filter_exact 1 entriesC7 hwf
  refine ⟨h.1.trans rfl, ?_⟩
  have h2 := h.2 0 0 800 600 envC7 rfl rfl (by decide)
  exact h2.trans rfl

/-! ## Claim theorems: degenerate regions and OS calls -/

/-- Degenerate requested width or height makes the `WindowCapture` clip
degenerate. -/
theorem wcClip_deg (geomT : Int × Int × Int × Int) (sx sy sw sh : Int)
    (hdeg : sw ≤ 0 ∨ sh ≤ 0) :
    (wcClip geomT sx sy sw sh).2.2.1 ≤ 0 ∨
    (wcClip geomT sx sy sw sh).2.2.2 ≤ 0 := by
  obtain ⟨tx, ty, tw, th⟩ := geomT
  by_cases hlx : sx - tx < 0 <;> by_cases hly : sy - ty < 0 <;>
    rcases hdeg with hw | hh <;>
    simp only [wcClip, hlx, hly, if_true, if_false] <;>
    first
      | exact Or.inl (le_trans (min_le_left _ _) (by omega))
      | exact Or.inr (le_trans (min_le_left _ _) (by omega))

/-- Concrete environment for the degenerate-size counterexample: one
foreign on-screen window (pid 99, id 7); image creation yields nothing. -/
def envC3 : MacEnv :=
  ⟨some [some ⟨some 99, some 7⟩], true, fun _ _ _ _ _ => none⟩

/-- C3 counterexample: `MacOSCapture.grab` called with width 0 (and height
0) still issues the window-enumeration OS call and then the compositor
call — it does not return none before any OS call is issued. -/
theorem macGrab_oscall_on_degenerate_cex :
    (macGrab 42 0 0 0 0 envC3).2 =
      [MacCall.copyWindowInfo,
       MacCall.createImageFromArray [7] 0 0 0 0] ∧
    (macGrab 42 0 0 0 0 envC3).2 ≠ [] := by
  refine ⟨rfl, ?_⟩
  intro hc
  rw [show (macGrab 42 0 0 0 0 envC3).2 =
    [MacCall.copyWindowInfo, MacCall.createImageFromArray [7] 0 0 0 0]
    from rfl] at hc
  exact List.noConfusion hc

/-- C3 amended: the `ScreenCapture` front end and the Display-Affinity
backend return none with no OS call on a degenerate region; the
Direct-Window backend issues no pixel-read call for a degenerate region
(its trace is only the possible background-detection kick); but the
Window-Exclusion backend's grab always begins with the window-enumeration
OS call, regardless of the requested size. -/
theorem degenerate_grab_oscall_policy (x y w h : Int)
    (hdeg : w ≤ 0 ∨ h ≤ 0) :
    (∀ (s : SCState) (wcEnv : Option Frame) (mssEnv : MssResult),
      scGrab s x y w h wcEnv mssEnv = (none, s, [])) ∧
    (∀ (s : Win32State) (env : MssResult),
      win32Grab s x y w h env = (none, s, [])) ∧
    (∀ (s : WCState) (env : Option Frame),
      (wcGrab s x y w h env).1 = none ∧
      (wcGrab s x y w h env).2.2 = (wcTickDetect s x y w h).2) ∧
    (∀ (ourPid : Int) (env : MacEnv),
      (macGrab ourPid x y w h env).2.head? = some MacCall.copyWindowInfo) := by
  refine ⟨?_, ?_, ?_, ?_⟩
  · intro s wcEnv mssEnv
    rw [scGrab, if_pos hdeg]
  · intro s env
    rw [win32Grab, if_pos hdeg]
  · intro s env
    by_cases h0 : (wcTickDetect s x y w h).1.targetWid = 0
    · constructor <;> simp [wcGrab, h0]
    · have hd := wcClip_deg (wcTickDetect s x y w h).1.targetGeom x y w h hdeg
      constructor <;> simp [wcGrab, h0, hd]
  · intro ourPid env
    rw [macGrab]
    cases env.windowList with
    | none => rfl
    | some entries =>
      cases hids : (filterWindowIds ourPid entries).isEmpty with
      | true => simp [hids]
      | false =>
        cases hok : env.arrayCreateOk with
        | true => simp [hids, hok]
        | false => simp [hids, hok]

/-- C3 witness: the amended degenerate-region policy at width 0. -/
theorem degenerate_grab_oscall_policy_witness :
    scGrab ⟨none, true⟩ 0 0 0 100 none MssResult.raised
      = (none, ⟨none, true⟩, []) ∧
    win32Grab ⟨5, [], true⟩ 0 0 0 100 MssResult.raised
      = (none, ⟨5, [], true⟩, []) ∧
    (macGrab 42 0 0 0 100 envC3).2.head? = some MacCall.copyWindowInfo := by
  have h := degenerate_grab_oscall_policy 0 0 0 100 (Or.inl le_rfl)
  exact ⟨h.1 ⟨none, true⟩ none MssResult.raised,
    h.2.1 ⟨5, [], true⟩ MssResult.raised,
    h.2.2.2 42 envC3⟩

/-! ## Claim theorems: ScreenCapture fallback behaviour -/

/-- Concrete mss screenshot used in the fallback counterexample. -/
def frameC4 : Frame := ⟨50, 40, fun _ _ => ⟨1, 2, 3, 4⟩⟩

/-- A `ScreenCapture` that selected the Linux direct backend (fresh
`WindowCapture` on window id 7) and already owns an mss instance. -/
def scStateC4 : SCState := ⟨some (wcInit 7), true⟩

/-- C4 counterexample: on a tick where the selected direct backend's grab
returns none (fresh instance, no target yet), `ScreenCapture.grab` does
not return none for that tick: it invokes the mss grab in its place and
returns the mss frame. -/
theorem sc_mss_fallback_cex :
    (scGrab scStateC4 0 0 100 100 none (MssResult.shot frameC4)).1
      = some (swapRB frameC4) ∧
    SCCall.mssShotCall 0 0 100 100 ∈
      (scGrab scStateC4 0 0 100 100 none (MssResult.shot frameC4)).2.2 ∧
    (scGrab scStateC4 0 0 100 100 none (MssResult.shot frameC4)).1 ≠ none := by
  refine ⟨rfl, ?_, ?_⟩
  · rw [show (scGrab scStateC4 0 0 100 100 none (MssResult.shot frameC4)).2.2
      = [SCCall.qtCall (WCCall.startDetect 0 0 100 100),
         SCCall.mssShotCall 0 0 100 100] from rfl]
    exact List.mem_cons_of_mem _ (List.mem_cons_self _ _)
  · intro hc
    rw [show (scGrab scStateC4 0 0 100 100 none (MssResult.shot frameC4)).1
      = some (swapRB frameC4) from rfl] at hc
    exact Option.noConfusion hc

/-- C4 amended: backend selection is fixed at construction — a grab never
replaces or drops the selected direct backend (only its internal cache
advances); but on a tick where the direct backend's grab yields no frame
and the region is non-degenerate, `ScreenCapture.grab` falls through to an
mss grab and returns its result for that tick, rather than returning
none. -/
theorem backend_fixed_mss_fallback (s : SCState) (wc : WCState)
    (x y w h : Int) (wcEnv : Option Frame) (mssEnv : MssResult)
    (hqt : s.qtCap = some wc) :
    ((scGrab s x y w h wcEnv mssEnv).2.1.qtCap = some wc ∨
     (scGrab s x y w h wcEnv mssEnv).2.1.qtCap
        = some (wcGrab wc x y w h wcEnv).2.1) ∧
    (0 < w → 0 < h → (wcGrab wc x y w h wcEnv).1 = none →
      (scGrab s x y w h wcEnv mssEnv).1 = mssDecode mssEnv) := by
  constructor
  · by_cases hdeg : w ≤ 0 ∨ h ≤ 0
    · left
      simp [scGrab, hdeg, hqt]
    · right
      simp only [scGrab, hqt, if_neg hdeg]
      cases hr : (wcGrab wc x y w h wcEnv).1 with
      | some f => simp [hr]
      | none => simp [hr]
  · intro hw hh hnone
    have hdeg : ¬(w ≤ 0 ∨ h ≤ 0) := by omega
    rw [scGrab, if_neg hdeg, hqt]
    simp only [hnone]
    rfl

/-- C4 witness: the amended fallback behaviour at the counterexample
input. -/
theorem backend_fixed_mss_fallback_witness :
    (scGrab scStateC4 0 0 100 100 none (MssResult.shot frameC4)).2.1.qtCap
        = some (wcInit 7) ∨
    (scGrab scStateC4 0 0 100 100 none (MssResult.shot frameC4)).2.1.qtCap
        = some (wcGrab (wcInit 7) 0 0 100 100 none).2.1 :=
  (backend_fixed_mss_fallback scStateC4 (wcInit 7) 0 0 100 100 none
    (MssResult.shot frameC4) rfl).1

/-! ## Claim theorems: small-target padding -/

/-- A `WindowCapture` whose background detection has published target
window 4 with geometry (0,0,10,10) — smaller than the 100×100 region
requested next. -/
def wcStateC9 : WCState := wcPublish (wcInit 10) 4 (0, 0, 10, 10)

/-- The 10×10 content `grabWindow` delivers for the clipped
sub-rectangle. -/
def frameC9 : Frame := ⟨10, 10, fun _ _ => ⟨5, 6, 7, 255⟩⟩

/-- C9 counterexample: with a resolved target smaller than the requested
100×100 region, `WindowCapture.grab` returns the clipped 10×10 frame
unchanged — not a frame of the requested dimensions padded with black. -/
theorem wcGrab_no_padding_cex :
    (wcGrab wcStateC9 0 0 100 100 (some frameC9)).1 = some frameC9 ∧
    frameC9.width = 10 ∧ frameC9.height = 10 ∧ frameC9.width ≠ 100 :=
  ⟨rfl, rfl, rfl, by decide⟩

/-- C9 amended: the two Direct-Window variants differ.  The X11 ctypes
variant pads: when the readable sub-rectangle is smaller than the request,
`_read_from_window` returns a frame of the requested dimensions whose area
beyond the sub-rectangle is fully-opaque black.  The `WindowCapture`
variant (the one `ScreenCapture` selects) does not fail either, but it
returns the clipped sub-rectangle frame at its reduced size, without
padding. -/
theorem padding_behaviour_by_variant :
    (∀ (g : Geom) (sx sy sw sh lx ly gw gh : Int)
       (env : Int → Int → Int → Int → Option XImage) (img : XImage),
      clippedRect g sx sy sw sh = (lx, ly, gw, gh) →
      0 < gw → 0 < gh → (gw < sw ∨ gh < sh) →
      env lx ly gw gh = some img →
      (img.bitsPerPixel = 24 ∨ img.bitsPerPixel = 32) →
      ∃ fr, readFromWindow (some g) sx sy sw sh env = some fr ∧
        fr.width = sw.toNat ∧ fr.height = sh.toNat ∧
        (∀ px py : Nat, gw.toNat ≤ px ∨ gh.toNat ≤ py →
          fr.pix px py = opaqueBlack)) ∧
    (∀ (s : WCState) (sx sy sw sh : Int) (f : Frame),
      (wcGrab s sx sy sw sh (some f)).1 = none ∨
      (wcGrab s sx sy sw sh (some f)).1 = some f) := by
  constructor
  · intro g sx sy sw sh lx ly gw gh env img hclip hgw hgh hsmall henv hbpp
    have hnd : ¬(gw ≤ 0 ∨ gh ≤ 0) := by omega
    have hb : ¬(img.bitsPerPixel ≠ 24 ∧ img.bitsPerPixel ≠ 32) := by
      rcases hbpp with h | h <;> simp [h]
    simp only [readFromWindow, hclip, henv, hnd, hb, if_false, hsmall,
      if_true]
    refine ⟨_, rfl, rfl, rfl, ?_⟩
    intro px py hpp
    have hc : ¬(px < gw.toNat ∧ py < gh.toNat) := by omega
    exact if_neg hc
  · intro s sx sy sw sh f
    by_cases h0 : (wcTickDetect s sx sy sw sh).1.targetWid = 0
    · left
      simp [wcGrab, h0]
    · by_cases hcl :
        (wcClip (wcTickDetect s sx sy sw sh).1.targetGeom sx sy sw sh).2.2.1
          ≤ 0 ∨
        (wcClip (wcTickDetect s sx sy sw sh).1.targetGeom sx sy sw sh).2.2.2
          ≤ 0
      · left
        simp [wcGrab, h0, hcl]
      · right
        simp [wcGrab, h0, hcl]

/-- Image content delivered by the `XGetImage` oracle in the padding
witness. -/
def ximgC9 : XImage := ⟨32, fun _ _ => ⟨9, 8, 7, 0⟩⟩

/-- `XGetImage` oracle for the padding witness. -/
def xenvC9 : Int → Int → Int → Int → Option XImage :=
  fun _ _ _ _ => some ximgC9

/-- C9 witness: reading a 100×100 region from a 10×10 target through the
X11 variant yields a 100×100 frame whose pixel (50,50) — outside the
target — is opaque black. -/
theorem padding_behaviour_by_variant_witness :
    ∃ fr, readFromWindow (some ⟨0, 0, 10, 10⟩) 0 0 100 100 xenvC9
        = some fr ∧
      fr.width = (100 : Int).toNat ∧ fr.height = (100 : Int).toNat ∧
      fr.pix 50 50 = opaqueBlack := by
  obtain ⟨fr, heq, hw, hh, hpad⟩ :=
    padding_behaviour_by_variant.1 ⟨0, 0, 10, 10⟩ 0 0 100 100 0 0 10 10
      xenvC9 ximgC9 rfl (by norm_num) (by norm_num)
      (Or.inl (by norm_num)) rfl (Or.inr rfl)
  exact ⟨fr, heq, hw, hh, hpad 50 50 (Or.inl (by norm_num))⟩

/-! ## Claim theorems: coordinator hide/restore cycle -/

/-- C1: over one full asynchronous (needs_hide) tick, the own overlay
window and every companion window that was visible at tick start are set
to opacity 0 and restored to opacity 1 at the end of the cycle,
unconditionally — for every grab outcome, including `mssEnv = raised`
(the underlying OS grab raised; `ScreenCapture._mss_grab` catches it and
yields none) and a none result; each such window's opacity trace over the
tick (start value followed by the writes) is exactly [1, 0, 1], and its
final opacity is 1. -/
theorem hideRestore_opacity_trace (s : CoordState) (cap : SCState)
    (x y w h : Int) (wcEnv : Option Frame) (mssEnv : MssResult)
    (tb gr : WinState)
    (hcap : s.capture = some cap) (hqt : cap.qtCap = none)
    (hbusy : s.capturing = false) (hw : 0 < w) (hh : 0 < h)
    (hov : s.overlay.opacity = 1)
    (htb : s.toolbar = some tb) (htbv : tb.visible = true)
    (htbo : tb.opacity = 1)
    (hgr : s.grip = some gr) (hgrv : gr.visible = true)
    (hgro : gr.opacity = 1) :
    (s.overlay.opacity ::
        opacityWrites CoordWin.overlayW
          (asyncTickCycle s x y w h wcEnv mssEnv).2 = [1, 0, 1]) ∧
    (tb.opacity ::
        opacityWrites CoordWin.toolbarW
          (asyncTickCycle s x y w h wcEnv mssEnv).2 = [1, 0, 1]) ∧
    (gr.opacity ::
        opacityWrites CoordWin.gripW
          (asyncTickCycle s x y w h wcEnv mssEnv).2 = [1, 0, 1]) ∧
    (asyncTickCycle s x y w h wcEnv mssEnv).1.overlay.opacity = 1 ∧
    (asyncTickCycle s x y w h wcEnv mssEnv).1.toolbar
        = some { tb with opacity := 1 } ∧
    (asyncTickCycle s x y w h wcEnv mssEnv).1.grip
        = some { gr with opacity := 1 } := by
  have hdeg : ¬(w ≤ 0 ∨ h ≤ 0) := by omega
  simp [asyncTickCycle, onTimer, finishMssCapture, scGrab, scMssGrab,
    scNeedsHide, opacityWrites, hcap, hqt, hbusy, hdeg, htb, htbv, htbo,
    hgr, hgrv, hgro, hov]

/-- C1 witness: a concrete coordinator state in mss mode with visible
toolbar and grip at opacity 1, ticked with a raising grab. -/
def coordStateC1 : CoordState :=
  { capture := some ⟨none, true⟩
    capturing := false
    overlay := ⟨1, true⟩
    toolbar := some ⟨1, true⟩
    grip := some ⟨1, true⟩
    capRegion := (0, 0, 0, 0)
    pendingFrame := none }

/-- C1 witness: the toolbar's opacity trace over one asynchronous tick of
the concrete state, with the OS grab raising, is exactly [1, 0, 1]. -/
theorem hideRestore_opacity_trace_witness :
    (1 : ℚ) ::
      opacityWrites CoordWin.toolbarW
        (asyncTickCycle coordStateC1 0 0 640 480 none MssResult.raised).2
      = [1, 0, 1] :=
  (hideRestore_opacity_trace coordStateC1 ⟨none, true⟩ 0 0 640 480 none
    MssResult.raised ⟨1, true⟩ ⟨1, true⟩ rfl rfl rfl (by norm_num)
    (by norm_num) rfl rfl rfl rfl rfl rfl rfl).2.1

/-- C8: a tick that arrives while a prior asynchronous cycle is still in
flight (`capturing = true`) performs no opacity change and no capture
call: the timer handler returns immediately with an empty action trace and
an unchanged state, and no delayed finish step runs. -/
theorem reentrant_tick_noop (s : CoordState) (x y w h : Int)
    (wcEnv : Option Frame) (mssEnv : MssResult)
    (hbusy : s.capturing = true) :
    onTimer s x y w h wcEnv mssEnv = (s, []) ∧
    asyncTickCycle s x y w h wcEnv mssEnv = (s, []) := by
  have h1 : onTimer s x y w h wcEnv mssEnv = (s, []) := by
    rw [onTimer]
    cases hc : s.capture with
    | none => rfl
    | some cap => simp [hbusy]
  refine ⟨h1, ?_⟩
  simp [asyncTickCycle, h1, hbusy]

/-- The concrete in-flight coordinator state for the re-entrancy
witness. -/
def coordStateC8 : CoordState :=
  { capture := some ⟨none, true⟩
    capturing := true
    overlay := ⟨0, true⟩
    toolbar := some ⟨0, true⟩
    grip := some ⟨0, true⟩
    capRegion := (0, 0, 640, 480)
    pendingFrame := none }

/-- C8 witness: a tick on the concrete in-flight state is a no-op. -/
theorem reentrant_tick_noop_witness :
    asyncTickCycle coordStateC8 0 0 640 480 none MssResult.raised
      = (coordStateC8, []) :=
  (reentrant_tick_noop coordStateC8 0 0 640 480 none
    MssResult.raised rfl).2

end Retrospecs
